import Mathlib

/-
  Verification of the goto-automation webhook ingestion and call-processing
  pipeline against its specification.

  The Python sources (src/backend/webhooks.py, database.py, actions.py,
  transcription.py, notifications.py) are shallowly embedded below:
  pure functions become Lean functions, the SQLAlchemy-backed datastore
  becomes an explicit DBState record threaded through the operations,
  machine integers become Nat, datetimes become abstract Nat instants,
  and code that can raise becomes Except-valued.  Library calls whose
  behaviour is fixed outside the repository (pydantic payload parsing,
  datetime.fromisoformat) are taken as function parameters so theorems
  quantify over their behaviour.
-/

set_option maxRecDepth 100000
set_option maxHeartbeats 1000000

/-! ## Byte strings, SHA-256 and HMAC-SHA256

Models hashlib.sha256 / hmac.new(secret, payload, hashlib.sha256).hexdigest()
as used by validate_webhook_signature in src/backend/webhooks.py.
Words are Nat reduced mod 2^32. -/

abbrev Bytes := List Nat

def w32 (n : Nat) : Nat := n % 4294967296

def rotr (n x : Nat) : Nat := w32 ((x >>> n) ||| (x <<< (32 - n)))

def sha256K : List Nat :=
  [1116352408, 1899447441, 3049323471, 3921009573, 961987163, 1508970993,
   2453635748, 2870763221, 3624381080, 310598401, 607225278, 1426881987,
   1925078388, 2162078206, 2614888103, 3248222580, 3835390401, 4022224774,
   264347078, 604807628, 770255983, 1249150122, 1555081692, 1996064986,
   2554220882, 2821834349, 2952996808, 3210313671, 3336571891, 3584528711,
   113926993, 338241895, 666307205, 773529912, 1294757372, 1396182291,
   1695183700, 1986661051, 2177026350, 2456956037, 2730485921, 2820302411,
   3259730800, 3345764771, 3516065817, 3600352804, 4094571909, 275423344,
   430227734, 506948616, 659060556, 883997877, 958139571, 1322822218,
   1537002063, 1747873779, 1955562222, 2024104815, 2227730452, 2361852424,
   2428436474, 2756734187, 3204031479, 3329325298]

structure Sha256Hash where
  a : Nat
  b : Nat
  c : Nat
  d : Nat
  e : Nat
  f : Nat
  g : Nat
  h : Nat
deriving DecidableEq

def sha256Init : Sha256Hash :=
  ⟨1779033703, 3144134277, 1013904242, 2773480762,
   1359893119, 2600822924, 528734635, 1541459225⟩

def be32 (n : Nat) : Bytes :=
  [(n >>> 24) % 256, (n >>> 16) % 256, (n >>> 8) % 256, n % 256]

def be64 (n : Nat) : Bytes :=
  [(n >>> 56) % 256, (n >>> 48) % 256, (n >>> 40) % 256, (n >>> 32) % 256,
   (n >>> 24) % 256, (n >>> 16) % 256, (n >>> 8) % 256, n % 256]

def bytesOfHash (st : Sha256Hash) : Bytes :=
  be32 st.a ++ be32 st.b ++ be32 st.c ++ be32 st.d ++ be32 st.e ++ be32 st.f ++ be32 st.g ++ be32 st.h

def toWordsBE : Bytes → List Nat
  | b0 :: b1 :: b2 :: b3 :: rest => (((b0 * 256 + b1) * 256 + b2) * 256 + b3) :: toWordsBE rest
  | _ => []

def extendLoop (rws : List Nat) : Nat → List Nat
  | 0 => rws
  | fuel + 1 =>
    let w2 := rws.getD 1 0
    let w7 := rws.getD 6 0
    let w15 := rws.getD 14 0
    let w16 := rws.getD 15 0
    let s0 := (rotr 7 w15) ^^^ (rotr 18 w15) ^^^ (w15 >>> 3)
    let s1 := (rotr 17 w2) ^^^ (rotr 19 w2) ^^^ (w2 >>> 10)
    extendLoop (w32 (w16 + s0 + w7 + s1) :: rws) fuel

def scheduleWords (chunk : Bytes) : List Nat :=
  (extendLoop (toWordsBE chunk).reverse 48).reverse

def sha256Round (st : Sha256Hash) (k w : Nat) : Sha256Hash :=
  let s1 := (rotr 6 st.e) ^^^ (rotr 11 st.e) ^^^ (rotr 25 st.e)
  let ch := (st.e &&& st.f) ^^^ ((st.e ^^^ 4294967295) &&& st.g)
  let temp1 := w32 (st.h + s1 + ch + k + w)
  let s0 := (rotr 2 st.a) ^^^ (rotr 13 st.a) ^^^ (rotr 22 st.a)
  let maj := (st.a &&& st.b) ^^^ (st.a &&& st.c) ^^^ (st.b &&& st.c)
  let temp2 := w32 (s0 + maj)
  ⟨w32 (temp1 + temp2), st.a, st.b, st.c, w32 (st.d + temp1), st.e, st.f, st.g⟩

def compressLoop : Sha256Hash → List Nat → List Nat → Sha256Hash
  | st, w :: ws, k :: ks => compressLoop (sha256Round st k w) ws ks
  | st, _, _ => st

def compressChunk (h0 : Sha256Hash) (chunk : Bytes) : Sha256Hash :=
  let st := compressLoop h0 (scheduleWords chunk) sha256K
  ⟨w32 (h0.a + st.a), w32 (h0.b + st.b), w32 (h0.c + st.c), w32 (h0.d + st.d),
   w32 (h0.e + st.e), w32 (h0.f + st.f), w32 (h0.g + st.g), w32 (h0.h + st.h)⟩

def splitChunksAux : Nat → Bytes → List Bytes
  | 0, _ => []
  | _, [] => []
  | fuel + 1, x :: rest => (x :: rest.take 63) :: splitChunksAux fuel (rest.drop 63)

def splitChunks (l : Bytes) : List Bytes := splitChunksAux l.length l

def padMessage (msg : Bytes) : Bytes :=
  let padZeros := (64 - ((msg.length + 9) % 64)) % 64
  msg ++ [128] ++ List.replicate padZeros 0 ++ be64 (8 * msg.length)

def sha256 (msg : Bytes) : Bytes :=
  bytesOfHash ((splitChunks (padMessage msg)).foldl compressChunk sha256Init)

/-- The lowercase hex digit for a nibble: 0-9 then a-f. -/
def hexChar (n : Nat) : Char :=
  if n < 10 then Char.ofNat (48 + n)
  else if n < 16 then Char.ofNat (87 + n)
  else Char.ofNat 48

def byteToHex (b : Nat) : List Char := [hexChar (b / 16), hexChar (b % 16)]

/-- Models bytes.hex() as produced by hashlib digest .hexdigest(). -/
def hexdigest (bytes : Bytes) : String := ⟨bytes.flatMap byteToHex⟩

/-- Models hmac.new(key, msg, hashlib.sha256).digest() (RFC 2104, block size 64). -/
def hmacSha256 (key msg : Bytes) : Bytes :=
  let k0 := if key.length > 64 then sha256 key else key
  let k := k0 ++ List.replicate (64 - k0.length) 0
  sha256 ((k.map (fun b => b ^^^ 92)) ++ sha256 ((k.map (fun b => b ^^^ 54)) ++ msg))

/-- UTF-8 encoding of one character; models Python str.encode() per code point. -/
def utf8Char (c : Char) : Bytes :=
  let n := c.toNat
  if n < 128 then [n]
  else if n < 2048 then [192 + n / 64, 128 + n % 64]
  else if n < 65536 then [224 + n / 4096, 128 + (n / 64) % 64, 128 + n % 64]
  else [240 + n / 262144, 128 + (n / 4096) % 64, 128 + (n / 64) % 64, 128 + n % 64]

/-- Models Python str.encode() (UTF-8). -/
def utf8Encode (s : String) : Bytes := s.data.flatMap utf8Char

def isAsciiChar (c : Char) : Bool := c.toNat < 128

def isAsciiString (s : String) : Bool := s.data.all isAsciiChar

/-- Models hmac.compare_digest on two str arguments: a constant-time equality
comparison whose result is the plain string equality, except that it raises
TypeError when either string contains a non-ASCII character. -/
def compare_digest (a b : String) : Except Unit Bool :=
  if isAsciiString a && isAsciiString b then Except.ok (a == b) else Except.error ()

/-- Embeds validate_webhook_signature from src/backend/webhooks.py.
A falsy signature (absent, or the empty string) is rejected with False;
otherwise the hex HMAC-SHA256 of the payload under the secret is compared
to the supplied signature with hmac.compare_digest.  The Except layer
carries the TypeError that compare_digest raises on non-ASCII input. -/
def validate_webhook_signature (payload : Bytes) (signature : Option String)
    (secret : String) : Except Unit Bool :=
  match signature with
  | none => Except.ok false
  | some s =>
    if s = "" then Except.ok false
    else
      let expected_signature := hexdigest (hmacSha256 (utf8Encode secret) payload)
      compare_digest s expected_signature

/-! Helper lemmas about hex digests. -/

theorem hexChar_ascii (n : Nat) : isAsciiChar (hexChar n) = true := by
  unfold hexChar
  by_cases h : n < 10
  · rw [if_pos h]
    interval_cases n <;> decide
  · rw [if_neg h]
    by_cases h2 : n < 16
    · rw [if_pos h2]
      interval_cases n <;> decide
    · rw [if_neg h2]
      decide

theorem hexdigest_ascii (l : Bytes) : isAsciiString (hexdigest l) = true := by
  unfold isAsciiString hexdigest
  show (l.flatMap byteToHex).all isAsciiChar = true
  induction l with
  | nil => decide
  | cons b t ih =>
    simp only [List.flatMap_cons, List.all_append, ih, Bool.and_true, byteToHex]
    simp [hexChar_ascii]

theorem hexdigest_bytesOfHash_ne_empty (x : Sha256Hash) : hexdigest (bytesOfHash x) ≠ "" := by
  intro h
  have hdata : (bytesOfHash x).flatMap byteToHex = [] := by
    have := congrArg String.data h
    exact this
  simp [bytesOfHash, be32, byteToHex] at hdata

theorem hexdigest_hmac_ne_empty (key msg : Bytes) : hexdigest (hmacSha256 key msg) ≠ "" := by
  unfold hmacSha256 sha256
  exact hexdigest_bytesOfHash_ne_empty _

/-! ## Data model (src/backend/database.py)

Rows become records; autoincrement primary keys are modeled by nextId
counters in DBState; DateTime columns become abstract Nat instants;
nullable columns become Option. -/

inductive SentimentType where
  | positive
  | neutral
  | negative
deriving DecidableEq

inductive ActionItemStatus where
  | pending
  | in_progress
  | completed
  | cancelled
deriving DecidableEq

inductive CallDirection where
  | inbound
  | outbound
deriving DecidableEq

structure Call where
  id : Nat
  goto_call_id : String
  direction : CallDirection
  caller_number : Option String
  caller_name : Option String
  called_number : Option String
  called_name : Option String
  start_time : Nat
  end_time : Option Nat
  duration_seconds : Nat
  recording_url : Option String
  webhook_received_at : Nat
deriving DecidableEq

structure CallSummary where
  id : Nat
  call_id : Nat
  transcript : Option String
  summary : Option String
  sentiment : Option SentimentType
  urgency_score : Option Nat
  key_topics : Option String
  transcription_started_at : Option Nat
  transcription_completed_at : Option Nat
  analysis_started_at : Option Nat
  analysis_completed_at : Option Nat
deriving DecidableEq

structure ActionItem where
  id : Nat
  call_id : Nat
  description : String
  assigned_to : Option String
  due_date : Option Nat
  status : ActionItemStatus
  priority : Option Nat
  completed_at : Option Nat
  updated_at : Nat
deriving DecidableEq

/-- The datastore: committed rows of the three tables the pipeline touches,
plus the autoincrement counters. -/
structure DBState where
  calls : List Call
  summaries : List CallSummary
  action_items : List ActionItem
  nextCallId : Nat
  nextSummaryId : Nat
  nextActionItemId : Nat
deriving DecidableEq

namespace CallRepository

/-- CallRepository.create: insert a new row; the autoincrement id is
assigned from the state's counter. -/
def create (st : DBState) (fields : Call) : Call × DBState :=
  let call := { fields with id := st.nextCallId }
  (call, { st with calls := st.calls ++ [call], nextCallId := st.nextCallId + 1 })

/-- CallRepository.get_by_goto_id: first row whose goto_call_id matches. -/
def get_by_goto_id (st : DBState) (goto_call_id : String) : Option Call :=
  st.calls.find? (fun c => c.goto_call_id == goto_call_id)

/-- CallRepository.get_by_id. -/
def get_by_id (st : DBState) (call_id : Nat) : Option Call :=
  st.calls.find? (fun c => c.id == call_id)

end CallRepository

namespace SummaryRepository

/-- SummaryRepository.create. -/
def create (st : DBState) (fields : CallSummary) : CallSummary × DBState :=
  let summary := { fields with id := st.nextSummaryId }
  (summary, { st with summaries := st.summaries ++ [summary],
                      nextSummaryId := st.nextSummaryId + 1 })

/-- SummaryRepository.get_by_call_id. -/
def get_by_call_id (st : DBState) (call_id : Nat) : Option CallSummary :=
  st.summaries.find? (fun s => s.call_id == call_id)

end SummaryRepository

/-- Models mutating the attributes of a fetched summary row followed by
session.commit(): the row with the same primary key is replaced. -/
def commitSummary (st : DBState) (s : CallSummary) : DBState :=
  { st with summaries := st.summaries.map (fun t => if t.id == s.id then s else t) }

/-- Models mutating the attributes of a fetched action-item row followed by
session.commit(). -/
def commitActionItem (st : DBState) (a : ActionItem) : DBState :=
  { st with action_items := st.action_items.map (fun t => if t.id == a.id then a else t) }

/-- Keyword arguments accepted by ActionItemRepository.update.  An outer
none means the keyword was not passed at all; completed_at can be passed
explicitly as null (some none), which the reopen endpoint does. -/
structure UpdateKwargs where
  status : Option ActionItemStatus
  assigned_to : Option String
  due_date : Option Nat
  priority : Option Nat
  completed_at : Option (Option Nat)
deriving DecidableEq

namespace ActionItemRepository

/-- ActionItemRepository.create. -/
def create (st : DBState) (fields : ActionItem) : ActionItem × DBState :=
  let action_item := { fields with id := st.nextActionItemId }
  (action_item, { st with action_items := st.action_items ++ [action_item],
                          nextActionItemId := st.nextActionItemId + 1 })

/-- ActionItemRepository.get_by_id. -/
def get_by_id (st : DBState) (action_id : Nat) : Option ActionItem :=
  st.action_items.find? (fun a => a.id == action_id)

/-- ActionItemRepository.update from src/backend/database.py: apply every
passed keyword with setattr, then, if the status keyword equals completed
and the (already updated) row has no completion timestamp, stamp
completed_at with the current time.  updated_at is refreshed on commit. -/
def update (action_item : ActionItem) (now : Nat) (kwargs : UpdateKwargs) : ActionItem :=
  let updated := { action_item with
    status := kwargs.status.getD action_item.status
    assigned_to := match kwargs.assigned_to with
      | none => action_item.assigned_to
      | some v => some v
    due_date := match kwargs.due_date with
      | none => action_item.due_date
      | some v => some v
    priority := match kwargs.priority with
      | none => action_item.priority
      | some v => some v
    completed_at := match kwargs.completed_at with
      | none => action_item.completed_at
      | some v => v
    updated_at := now }
  if kwargs.status == some ActionItemStatus.completed && updated.completed_at == none then
    { updated with completed_at := some now }
  else updated

end ActionItemRepository

/-! ## Action-item endpoints (src/backend/actions.py)

Each endpoint fetches the row by id (none models the 404 branch), runs
ActionItemRepository.update, and commits.  The PATCH body can carry
status, assigned_to, due_date and priority; pydantic gives None for
fields left out, and only non-None fields reach the update kwargs. -/

structure ActionItemUpdate where
  status : Option ActionItemStatus
  assigned_to : Option String
  due_date : Option Nat
  priority : Option Nat
deriving DecidableEq

/-- update_action_item (PATCH /api/actions/action_id). -/
def update_action_item (st : DBState) (action_id : Nat) (update_data : ActionItemUpdate)
    (now : Nat) : Option (ActionItem × DBState) :=
  match ActionItemRepository.get_by_id st action_id with
  | none => none
  | some action_item =>
    let update_dict : UpdateKwargs :=
      { status := update_data.status
        assigned_to := update_data.assigned_to
        due_date := update_data.due_date
        priority := update_data.priority
        completed_at := none }
    let updated_item := ActionItemRepository.update action_item now update_dict
    some (updated_item, commitActionItem st updated_item)

/-- complete_action_item (POST /api/actions/action_id/complete): an already
completed item is returned as is, without any update. -/
def complete_action_item (st : DBState) (action_id : Nat) (now : Nat) :
    Option (ActionItem × DBState) :=
  match ActionItemRepository.get_by_id st action_id with
  | none => none
  | some action_item =>
    if action_item.status == ActionItemStatus.completed then
      some (action_item, st)
    else
      let updated_item := ActionItemRepository.update action_item now
        { status := some ActionItemStatus.completed
          assigned_to := none
          due_date := none
          priority := none
          completed_at := some (some now) }
      some (updated_item, commitActionItem st updated_item)

/-- reopen_action_item (POST /api/actions/action_id/reopen): sets status to
pending and passes completed_at = None explicitly. -/
def reopen_action_item (st : DBState) (action_id : Nat) (now : Nat) :
    Option (ActionItem × DBState) :=
  match ActionItemRepository.get_by_id st action_id with
  | none => none
  | some action_item =>
    let updated_item := ActionItemRepository.update action_item now
      { status := some ActionItemStatus.pending
        assigned_to := none
        due_date := none
        priority := none
        completed_at := some none }
    some (updated_item, commitActionItem st updated_item)

/-! ## Webhook payload and handler (src/backend/webhooks.py)

The pydantic models become records; GoToWebhook.parse_raw and
datetime.fromisoformat are library calls taken as function parameters
(parseBody, parseTs).  HTTPException raises become an httpError result;
the response body becomes a response result. -/

/-- Models Python str.lower() (ASCII range; the handler only compares
against the ASCII literal outbound). -/
def str_lower (s : String) : String := ⟨s.data.map Char.toLower⟩

structure CallParticipant where
  number : Option String
  name : Option String
deriving DecidableEq

structure WebhookCallData where
  call_id : String
  direction : String
  caller : Option CallParticipant
  called : Option CallParticipant
  start_time : String
  end_time : Option String
  duration : Nat
  recording_url : Option String
  status : String
deriving DecidableEq

structure GoToWebhook where
  event_type : String
  timestamp : String
  data : WebhookCallData
deriving DecidableEq

inductive HandlerResult where
  | httpError (status_code : Nat) (detail : String)
  | response (status : String) (message : String) (call_id : Option String)
deriving DecidableEq

/-- Full outcome of one webhook request: the HTTP-level result, the
datastore afterwards, and the background task submitted to
background_tasks.add_task, if any (db call id and recording url). -/
structure HandlerOutput where
  result : HandlerResult
  db : DBState
  scheduled : Option (Nat × String)
deriving DecidableEq

/-- The two timestamp parses of the source wrapped together: end_time is
optional, and only parsed when present. -/
def parse_end_time (parseTs : String → Option Nat) : Option String → Option (Option Nat)
  | none => some none
  | some s =>
    match parseTs (s.replace "Z" "+00:00") with
    | none => none
    | some t => some (some t)

/-- Embeds handle_call_ended_webhook (POST /webhooks/goto/call-ended):
signature check, payload parse, event-type filter, duplicate check by
external call id, timestamp parse, direction defaulting, and the
idempotent create with optional background scheduling. -/
def handle_call_ended_webhook (parseBody : Bytes → Option GoToWebhook)
    (parseTs : String → Option Nat) (secret : String) (now : Nat)
    (st : DBState) (body : Bytes) (signature : Option String) : HandlerOutput :=
  match validate_webhook_signature body signature secret with
  | Except.error _ => ⟨HandlerResult.httpError 500 "Internal Server Error", st, none⟩
  | Except.ok false => ⟨HandlerResult.httpError 401 "Invalid signature", st, none⟩
  | Except.ok true =>
    match parseBody body with
    | none => ⟨HandlerResult.httpError 400 "Invalid payload", st, none⟩
    | some webhook_data =>
      if webhook_data.event_type != "call.ended" then
        ⟨HandlerResult.response "ignored"
           ("Event type " ++ webhook_data.event_type ++ " not handled") none, st, none⟩
      else
        let call_data := webhook_data.data
        match CallRepository.get_by_goto_id st call_data.call_id with
        | some _ =>
          ⟨HandlerResult.response "duplicate" "Call already processed"
             (some call_data.call_id), st, none⟩
        | none =>
          match parseTs (call_data.start_time.replace "Z" "+00:00"),
                parse_end_time parseTs call_data.end_time with
          | some start_time, some end_time =>
            let direction := if str_lower call_data.direction == "outbound"
              then CallDirection.outbound else CallDirection.inbound
            let res := CallRepository.create st
              { id := 0
                goto_call_id := call_data.call_id
                direction := direction
                caller_number := call_data.caller.bind CallParticipant.number
                caller_name := call_data.caller.bind CallParticipant.name
                called_number := call_data.called.bind CallParticipant.number
                called_name := call_data.called.bind CallParticipant.name
                start_time := start_time
                end_time := end_time
                duration_seconds := call_data.duration
                recording_url := call_data.recording_url
                webhook_received_at := now }
            let scheduled := match call_data.recording_url with
              | some url => some (res.1.id, url)
              | none => none
            ⟨HandlerResult.response "accepted" "Call webhook received and processing started"
               (some call_data.call_id), res.2, scheduled⟩
          | _, _ => ⟨HandlerResult.httpError 400 "Invalid timestamp format", st, none⟩

/-! ## Analysis result (src/backend/ai_analysis.py interface) -/

structure AIActionItem where
  description : String
  assigned_to : Option String
  priority : Nat
deriving DecidableEq

structure AnalysisResult where
  summary : String
  sentiment : SentimentType
  urgency_score : Nat
  key_topics : List String
  action_items : List AIActionItem
deriving DecidableEq

/-! ## Background pipeline (process_call_recording in src/backend/webhooks.py)

The two external backends (transcription via transcribe_from_url, LLM
analysis via analyze_call) are injected as their outcome for this run:
ok carries the result, error the raised exception.  Every datetime.utcnow()
instant is the abstract now.  The function returns the datastore after the
run together with whether the notification step was reached; the outer
try/except of the source catches any stage error, so the run always
terminates normally and leaves the committed state it reached (the
rollback in the except arm only discards uncommitted changes, and every
write of the pipeline commits immediately). -/
def process_call_recording (transcribe_from_url : Except Unit String)
    (analyze_call : Except Unit AnalysisResult) (now : Nat)
    (st : DBState) (call_id : Nat) (recording_url : String) : DBState × Bool :=
  match CallRepository.get_by_id st call_id with
  | none => (st, false)
  | some _call =>
    let getOrCreate : CallSummary × DBState :=
      match SummaryRepository.get_by_call_id st call_id with
      | none =>
        SummaryRepository.create st
          { id := 0
            call_id := call_id
            transcript := none
            summary := none
            sentiment := none
            urgency_score := none
            key_topics := none
            transcription_started_at := some now
            transcription_completed_at := none
            analysis_started_at := none
            analysis_completed_at := none }
      | some s =>
        let s1 := { s with transcription_started_at := some now }
        (s1, commitSummary st s1)
    let summary := getOrCreate.1
    let st1 := getOrCreate.2
    match transcribe_from_url with
    | Except.error _ => (st1, false)
    | Except.ok transcript =>
      let s2 := { summary with
        transcript := some transcript
        transcription_completed_at := some now
        analysis_started_at := some now }
      let st2 := commitSummary st1 s2
      match analyze_call with
      | Except.error _ => (st2, false)
      | Except.ok analysis =>
        let s3 := { s2 with
          summary := some analysis.summary
          sentiment := some analysis.sentiment
          urgency_score := some analysis.urgency_score
          key_topics := some (String.intercalate "," analysis.key_topics)
          analysis_completed_at := some now }
        let st3 := commitSummary st2 s3
        let st4 := analysis.action_items.foldl
          (fun acc ai =>
            (ActionItemRepository.create acc
              { id := 0
                call_id := call_id
                description := ai.description
                assigned_to := ai.assigned_to
                due_date := none
                status := ActionItemStatus.pending
                priority := some ai.priority
                completed_at := none
                updated_at := now }).2)
          st3
        (st4, true)

/-! ## Audio download (TranscriptionService.download_audio in
src/backend/transcription.py)

The streamed HTTP response is abstracted to its Content-Length header and
its actual body bytes.  The declared-size check divides by 1024*1024 and
compares against settings.max_audio_size_mb; the temporary file is only
created after that check, and the streaming loop writes every chunk,
counting total_bytes, with no further size check. -/

deriving instance DecidableEq for Except

structure DownloadOutcome where
  result : Except Unit Nat
  persisted : Bytes
deriving DecidableEq

def download_audio (max_audio_size_mb : Nat) (content_length : Option Nat)
    (body : Bytes) : DownloadOutcome :=
  match content_length with
  | some n =>
    if n > max_audio_size_mb * 1048576 then
      { result := Except.error (), persisted := [] }
    else
      { result := Except.ok body.length, persisted := body }
  | none => { result := Except.ok body.length, persisted := body }

/-! ## Notification fan-out (NotificationService.send_call_summary_notification
in src/backend/notifications.py)

The per-channel dispatches are injected as their outcomes.  The task list
is built from the configured channels; when it is empty the call logs a
warning and returns.  Otherwise asyncio.gather(..., return_exceptions=True)
runs every task and collects each outcome, so the result list has one
entry per configured channel whatever the individual outcomes are, and the
overall call never raises (it returns a NotifOutcome, not an Except). -/

structure NotifOutcome where
  results : List (Except Unit Unit)
  warnedNoChannels : Bool
deriving DecidableEq

def send_call_summary_notification (has_slack_configured has_email_configured : Bool)
    (slack_task email_task : Except Unit Unit) : NotifOutcome :=
  let tasks := (if has_slack_configured then [slack_task] else []) ++
               (if has_email_configured then [email_task] else [])
  if tasks.isEmpty then
    { results := [], warnedNoChannels := true }
  else
    { results := tasks, warnedNoChannels := false }

/-! ## Helper lemmas -/

theorem find_append_of_none {α : Type} (p : α → Bool) (l₁ l₂ : List α)
    (h : l₁.find? p = none) : (l₁ ++ l₂).find? p = l₂.find? p := by
  rw [List.find?_append, h, Option.none_or]

theorem filter_nil_of_find_none {α : Type} (p : α → Bool) (l : List α)
    (h : l.find? p = none) : l.filter p = [] := by
  rw [List.filter_eq_nil_iff]
  intro x hx
  exact List.find?_eq_none.mp h x hx

/-! ## C2: signature verification -/

/-- C2 (amended): verification accepts exactly the hex HMAC-SHA256 of the
payload under the secret: the correct digest yields true, any other ASCII
signature yields false, and an absent signature yields false without
raising; a non-ASCII supplied signature makes hmac.compare_digest raise
instead of returning false (see the counterexample). -/
theorem validate_webhook_signature_correct (payload : Bytes) (secret : String) (sig : String) :
    validate_webhook_signature payload
        (some (hexdigest (hmacSha256 (utf8Encode secret) payload))) secret = Except.ok true ∧
    (isAsciiString sig = true →
      sig ≠ hexdigest (hmacSha256 (utf8Encode secret) payload) →
      validate_webhook_signature payload (some sig) secret = Except.ok false) ∧
    validate_webhook_signature payload none secret = Except.ok false := by
  refine ⟨?_, ?_, rfl⟩
  · show (if hexdigest (hmacSha256 (utf8Encode secret) payload) = "" then Except.ok false
      else compare_digest (hexdigest (hmacSha256 (utf8Encode secret) payload))
        (hexdigest (hmacSha256 (utf8Encode secret) payload))) = Except.ok true
    rw [if_neg (hexdigest_hmac_ne_empty _ _)]
    unfold compare_digest
    rw [if_pos (by simp [hexdigest_ascii])]
    simp
  · intro hascii hne
    show (if sig = "" then Except.ok false
      else compare_digest sig (hexdigest (hmacSha256 (utf8Encode secret) payload)))
        = Except.ok false
    by_cases hemp : sig = ""
    · rw [if_pos hemp]
    · rw [if_neg hemp]
      unfold compare_digest
      rw [if_pos (by simp [hascii, hexdigest_ascii])]
      simp [hne]

/-- Witness for C2: the repository's own test vector, secret test-secret and
payload abc, with the incorrect ASCII signature invalid. -/
theorem validate_webhook_signature_correct_witness :
    validate_webhook_signature [97, 98, 99] (some "invalid") "test-secret" = Except.ok false :=
  (validate_webhook_signature_correct [97, 98, 99] "test-secret" "invalid").2.1
    (by decide) (by decide)

/-- C2 counterexample: a supplied signature containing a non-ASCII character
makes the verification raise (hmac.compare_digest raises TypeError on
non-ASCII str input) instead of returning false, refuting the claim that
every other supplied signature value yields false. -/
theorem validate_webhook_signature_nonascii_counterexample :
    validate_webhook_signature [] (some "invalidé") "test-secret" = Except.error () := by
  rfl

/-! ## Handler reduction helpers -/

/-- The Call record built by the accepted branch of the webhook handler. -/
def webhookCall (st : DBState) (now : Nat) (call_data : WebhookCallData)
    (t : Nat) (et : Option Nat) : Call :=
  { id := st.nextCallId
    goto_call_id := call_data.call_id
    direction := if str_lower call_data.direction == "outbound"
      then CallDirection.outbound else CallDirection.inbound
    caller_number := call_data.caller.bind CallParticipant.number
    caller_name := call_data.caller.bind CallParticipant.name
    called_number := call_data.called.bind CallParticipant.number
    called_name := call_data.called.bind CallParticipant.name
    start_time := t
    end_time := et
    duration_seconds := call_data.duration
    recording_url := call_data.recording_url
    webhook_received_at := now }

theorem handle_fresh_create (parseBody : Bytes → Option GoToWebhook)
    (parseTs : String → Option Nat) (secret : String) (now : Nat)
    (st : DBState) (body : Bytes) (sig : Option String) (wh : GoToWebhook)
    (t : Nat) (et : Option Nat)
    (hsig : validate_webhook_signature body sig secret = Except.ok true)
    (hparse : parseBody body = some wh)
    (hevent : wh.event_type = "call.ended")
    (hfresh : CallRepository.get_by_goto_id st wh.data.call_id = none)
    (hts : parseTs (wh.data.start_time.replace "Z" "+00:00") = some t)
    (hte : parse_end_time parseTs wh.data.end_time = some et) :
    handle_call_ended_webhook parseBody parseTs secret now st body sig =
      ⟨HandlerResult.response "accepted" "Call webhook received and processing started"
          (some wh.data.call_id),
        { st with calls := st.calls ++ [webhookCall st now wh.data t et],
                  nextCallId := st.nextCallId + 1 },
        match wh.data.recording_url with
        | some url => some (st.nextCallId, url)
        | none => none⟩ := by
  simp only [handle_call_ended_webhook, hsig, hparse, hevent, hfresh, hts, hte,
    bne_self_eq_false, Bool.false_eq_true, if_false, CallRepository.create, webhookCall]

theorem handle_duplicate (parseBody : Bytes → Option GoToWebhook)
    (parseTs : String → Option Nat) (secret : String) (now : Nat)
    (st : DBState) (body : Bytes) (sig : Option String) (wh : GoToWebhook) (c : Call)
    (hsig : validate_webhook_signature body sig secret = Except.ok true)
    (hparse : parseBody body = some wh)
    (hevent : wh.event_type = "call.ended")
    (hdup : CallRepository.get_by_goto_id st wh.data.call_id = some c) :
    handle_call_ended_webhook parseBody parseTs secret now st body sig =
      ⟨HandlerResult.response "duplicate" "Call already processed" (some wh.data.call_id),
        st, none⟩ := by
  simp only [handle_call_ended_webhook, hsig, hparse, hevent, hdup,
    bne_self_eq_false, Bool.false_eq_true, if_false]

/-- Lookup by external id after the handler appended its fresh call row. -/
theorem get_by_goto_id_after_create (st : DBState) (now t : Nat) (et : Option Nat)
    (call_data : WebhookCallData)
    (hfresh : CallRepository.get_by_goto_id st call_data.call_id = none) :
    CallRepository.get_by_goto_id
        { st with calls := st.calls ++ [webhookCall st now call_data t et],
                  nextCallId := st.nextCallId + 1 }
        call_data.call_id = some (webhookCall st now call_data t et) := by
  unfold CallRepository.get_by_goto_id at hfresh ⊢
  show (st.calls ++ [webhookCall st now call_data t et]).find? _ = _
  rw [find_append_of_none _ _ _ hfresh]
  simp [List.find?, webhookCall]

/-! ## C1: idempotent call creation -/

/-- C1: submitting the same well-signed call.ended payload twice creates the
call row on the first submission (status accepted) and only looks it up on
the second (status duplicate): the datastore after the second submission is
unchanged from the first, so no field of the existing Call is overwritten,
and exactly one Call row carries the external call id. -/
theorem webhook_idempotency
    (parseBody : Bytes → Option GoToWebhook) (parseTs : String → Option Nat)
    (secret : String) (now1 now2 : Nat) (st : DBState) (body : Bytes) (sig : Option String)
    (wh : GoToWebhook) (t : Nat) (et : Option Nat)
    (hsig : validate_webhook_signature body sig secret = Except.ok true)
    (hparse : parseBody body = some wh)
    (hevent : wh.event_type = "call.ended")
    (hfresh : CallRepository.get_by_goto_id st wh.data.call_id = none)
    (hts : parseTs (wh.data.start_time.replace "Z" "+00:00") = some t)
    (hte : parse_end_time parseTs wh.data.end_time = some et) :
    (handle_call_ended_webhook parseBody parseTs secret now1 st body sig).result =
      HandlerResult.response "accepted" "Call webhook received and processing started"
        (some wh.data.call_id) ∧
    (handle_call_ended_webhook parseBody parseTs secret now2
        (handle_call_ended_webhook parseBody parseTs secret now1 st body sig).db
        body sig).result =
      HandlerResult.response "duplicate" "Call already processed" (some wh.data.call_id) ∧
    (handle_call_ended_webhook parseBody parseTs secret now2
        (handle_call_ended_webhook parseBody parseTs secret now1 st body sig).db
        body sig).db =
      (handle_call_ended_webhook parseBody parseTs secret now1 st body sig).db ∧
    ((handle_call_ended_webhook parseBody parseTs secret now2
        (handle_call_ended_webhook parseBody parseTs secret now1 st body sig).db
        body sig).db.calls.filter
      (fun c => c.goto_call_id == wh.data.call_id)).length = 1 := by
  have h1 := handle_fresh_create parseBody parseTs secret now1 st body sig wh t et
    hsig hparse hevent hfresh hts hte
  have hdup := get_by_goto_id_after_create st now1 t et wh.data hfresh
  have h2 := handle_duplicate parseBody parseTs secret now2
    { st with calls := st.calls ++ [webhookCall st now1 wh.data t et],
              nextCallId := st.nextCallId + 1 }
    body sig wh (webhookCall st now1 wh.data t et) hsig hparse hevent hdup
  rw [h1]
  refine ⟨rfl, ?_, ?_, ?_⟩
  · show (handle_call_ended_webhook parseBody parseTs secret now2 _ body sig).result = _
    rw [h2]
  · show (handle_call_ended_webhook parseBody parseTs secret now2 _ body sig).db = _
    rw [h2]
  · show ((handle_call_ended_webhook parseBody parseTs secret now2 _ body sig).db.calls.filter _).length = 1
    rw [h2]
    show ((st.calls ++ [webhookCall st now1 wh.data t et]).filter _).length = 1
    rw [List.filter_append,
      filter_nil_of_find_none _ _ hfresh]
    simp [List.filter, webhookCall]

/-! ## Concrete inputs used by the witnesses -/

/-- Hex HMAC-SHA256 of the empty payload under the secret test-secret. -/
def exSignature : String :=
  "a41bc6d81d6413576ae0994995e0ad89a416ec97389515c3604f47722122eeeb"

theorem exSignature_valid :
    validate_webhook_signature [] (some exSignature) "test-secret" = Except.ok true := by
  decide

def exWebhook : GoToWebhook :=
  ⟨"call.ended", "2025-01-15T14:30:45Z",
    ⟨"CALL-1", "inbound", none, none, "2025-01-15T14:25:00Z", none, 100, none, "completed"⟩⟩

def exWebhookStarted : GoToWebhook :=
  ⟨"call.started", "2025-01-15T14:30:45Z",
    ⟨"CALL-1", "inbound", none, none, "2025-01-15T14:25:00Z", none, 100, none, "completed"⟩⟩

def exWebhookInternal : GoToWebhook :=
  ⟨"call.ended", "2025-01-15T14:30:45Z",
    ⟨"CALL-2", "internal", none, none, "2025-01-15T14:25:00Z", none, 100, none, "completed"⟩⟩

def exWebhookBadTs : GoToWebhook :=
  ⟨"call.ended", "2025-01-15T14:30:45Z",
    ⟨"CALL-1", "inbound", none, none, "not-a-timestamp", none, 100, none, "completed"⟩⟩

def exDB0 : DBState := ⟨[], [], [], 1, 1, 1⟩

def exCall : Call :=
  ⟨1, "CALL-1", CallDirection.inbound, none, none, none, none, 0, none, 100, none, 0⟩

def exDBdup : DBState := ⟨[exCall], [], [], 2, 1, 1⟩

/-- Witness for C1 at concrete inputs: empty body, its real HMAC signature,
a fixed parsed payload and a datastore with no calls. -/
theorem webhook_idempotency_witness :
    (handle_call_ended_webhook (fun _ => some exWebhook) (fun _ => some 0)
        "test-secret" 0 exDB0 [] (some exSignature)).result =
      HandlerResult.response "accepted" "Call webhook received and processing started"
        (some exWebhook.data.call_id) ∧
    (handle_call_ended_webhook (fun _ => some exWebhook) (fun _ => some 0)
        "test-secret" 0
        (handle_call_ended_webhook (fun _ => some exWebhook) (fun _ => some 0)
          "test-secret" 0 exDB0 [] (some exSignature)).db
        [] (some exSignature)).result =
      HandlerResult.response "duplicate" "Call already processed"
        (some exWebhook.data.call_id) ∧
    (handle_call_ended_webhook (fun _ => some exWebhook) (fun _ => some 0)
        "test-secret" 0
        (handle_call_ended_webhook (fun _ => some exWebhook) (fun _ => some 0)
          "test-secret" 0 exDB0 [] (some exSignature)).db
        [] (some exSignature)).db =
      (handle_call_ended_webhook (fun _ => some exWebhook) (fun _ => some 0)
        "test-secret" 0 exDB0 [] (some exSignature)).db ∧
    ((handle_call_ended_webhook (fun _ => some exWebhook) (fun _ => some 0)
        "test-secret" 0
        (handle_call_ended_webhook (fun _ => some exWebhook) (fun _ => some 0)
          "test-secret" 0 exDB0 [] (some exSignature)).db
        [] (some exSignature)).db.calls.filter
      (fun c => c.goto_call_id == exWebhook.data.call_id)).length = 1 :=
  webhook_idempotency (fun _ => some exWebhook) (fun _ => some 0) "test-secret" 0 0
    exDB0 [] (some exSignature) exWebhook 0 none
    exSignature_valid rfl rfl rfl rfl rfl

/-! ## C6: non call.ended events are ignored without touching the datastore -/

/-- C6: a well-signed, schema-valid webhook whose event_type is not
call.ended yields the explicit ignored response (distinct from the accepted,
duplicate and httpError results) and leaves the datastore untouched, with no
background task scheduled, so no Call row is created. -/
theorem webhook_ignores_other_events
    (parseBody : Bytes → Option GoToWebhook) (parseTs : String → Option Nat)
    (secret : String) (now : Nat) (st : DBState) (body : Bytes) (sig : Option String)
    (wh : GoToWebhook)
    (hsig : validate_webhook_signature body sig secret = Except.ok true)
    (hparse : parseBody body = some wh)
    (hevent : wh.event_type ≠ "call.ended") :
    handle_call_ended_webhook parseBody parseTs secret now st body sig =
      ⟨HandlerResult.response "ignored"
          ("Event type " ++ wh.event_type ++ " not handled") none,
        st, none⟩ := by
  simp only [handle_call_ended_webhook, hsig, hparse]
  rw [if_pos (bne_iff_ne.mpr hevent)]

/-- Witness for C6: a call.started event on the empty datastore. -/
theorem webhook_ignores_other_events_witness :
    handle_call_ended_webhook (fun _ => some exWebhookStarted) (fun _ => some 0)
        "test-secret" 0 exDB0 [] (some exSignature) =
      ⟨HandlerResult.response "ignored"
          ("Event type " ++ exWebhookStarted.event_type ++ " not handled") none,
        exDB0, none⟩ :=
  webhook_ignores_other_events (fun _ => some exWebhookStarted) (fun _ => some 0)
    "test-secret" 0 exDB0 [] (some exSignature) exWebhookStarted
    exSignature_valid rfl (by decide)

/-! ## C8: unrecognized directions default to inbound -/

/-- C8 (implicit): when the payload direction string is not case-insensitively
outbound, including values like internal or the empty string, the payload is
still accepted and the created Call row stores direction inbound. -/
theorem webhook_direction_defaults_inbound
    (parseBody : Bytes → Option GoToWebhook) (parseTs : String → Option Nat)
    (secret : String) (now : Nat) (st : DBState) (body : Bytes) (sig : Option String)
    (wh : GoToWebhook) (t : Nat) (et : Option Nat)
    (hsig : validate_webhook_signature body sig secret = Except.ok true)
    (hparse : parseBody body = some wh)
    (hevent : wh.event_type = "call.ended")
    (hfresh : CallRepository.get_by_goto_id st wh.data.call_id = none)
    (hts : parseTs (wh.data.start_time.replace "Z" "+00:00") = some t)
    (hte : parse_end_time parseTs wh.data.end_time = some et)
    (hdir : str_lower wh.data.direction ≠ "outbound") :
    (handle_call_ended_webhook parseBody parseTs secret now st body sig).result =
      HandlerResult.response "accepted" "Call webhook received and processing started"
        (some wh.data.call_id) ∧
    ∃ c, CallRepository.get_by_goto_id
        (handle_call_ended_webhook parseBody parseTs secret now st body sig).db
        wh.data.call_id = some c ∧ c.direction = CallDirection.inbound := by
  have h1 := handle_fresh_create parseBody parseTs secret now st body sig wh t et
    hsig hparse hevent hfresh hts hte
  rw [h1]
  refine ⟨rfl, webhookCall st now wh.data t et, ?_, ?_⟩
  · exact get_by_goto_id_after_create st now t et wh.data hfresh
  · show (if str_lower wh.data.direction == "outbound"
      then CallDirection.outbound else CallDirection.inbound) = CallDirection.inbound
    rw [if_neg]
    intro h
    exact hdir (by simpa using h)

/-- Witness for C8: a payload with direction internal. -/
theorem webhook_direction_defaults_inbound_witness :
    (handle_call_ended_webhook (fun _ => some exWebhookInternal) (fun _ => some 0)
        "test-secret" 0 exDB0 [] (some exSignature)).result =
      HandlerResult.response "accepted" "Call webhook received and processing started"
        (some exWebhookInternal.data.call_id) ∧
    ∃ c, CallRepository.get_by_goto_id
        (handle_call_ended_webhook (fun _ => some exWebhookInternal) (fun _ => some 0)
          "test-secret" 0 exDB0 [] (some exSignature)).db
        exWebhookInternal.data.call_id = some c ∧ c.direction = CallDirection.inbound :=
  webhook_direction_defaults_inbound (fun _ => some exWebhookInternal) (fun _ => some 0)
    "test-secret" 0 exDB0 [] (some exSignature) exWebhookInternal 0 none
    exSignature_valid rfl rfl rfl rfl rfl (by decide)

/-! ## C10: the duplicate check runs before timestamp validation -/

/-- C10 (implicit): for a well-signed, schema-valid call.ended payload the
duplicate check by external call id precedes timestamp parsing: on a
datastore that already holds the call id the handler answers duplicate
whatever the timestamp strings parse to, while on a datastore without the
call id an unparseable start_time produces the 400 Invalid timestamp format
error. -/
theorem webhook_duplicate_precedes_timestamps
    (parseBody : Bytes → Option GoToWebhook) (parseTs : String → Option Nat)
    (secret : String) (now : Nat) (body : Bytes) (sig : Option String)
    (wh : GoToWebhook)
    (hsig : validate_webhook_signature body sig secret = Except.ok true)
    (hparse : parseBody body = some wh)
    (hevent : wh.event_type = "call.ended") :
    (∀ st c, CallRepository.get_by_goto_id st wh.data.call_id = some c →
      handle_call_ended_webhook parseBody parseTs secret now st body sig =
        ⟨HandlerResult.response "duplicate" "Call already processed"
            (some wh.data.call_id), st, none⟩) ∧
    (∀ st, CallRepository.get_by_goto_id st wh.data.call_id = none →
      parseTs (wh.data.start_time.replace "Z" "+00:00") = none →
      handle_call_ended_webhook parseBody parseTs secret now st body sig =
        ⟨HandlerResult.httpError 400 "Invalid timestamp format", st, none⟩) := by
  constructor
  · intro st c hdup
    exact handle_duplicate parseBody parseTs secret now st body sig wh c
      hsig hparse hevent hdup
  · intro st hfresh hbad
    simp only [handle_call_ended_webhook, hsig, hparse, hevent, hfresh, hbad,
      bne_self_eq_false, Bool.false_eq_true, if_false]

/-- Witness for C10: the same bad-timestamp payload is answered duplicate on
a datastore already holding the call id, and 400 on an empty datastore. -/
theorem webhook_duplicate_precedes_timestamps_witness :
    handle_call_ended_webhook (fun _ => some exWebhookBadTs) (fun _ => none)
        "test-secret" 0 exDBdup [] (some exSignature) =
      ⟨HandlerResult.response "duplicate" "Call already processed"
          (some exWebhookBadTs.data.call_id), exDBdup, none⟩ ∧
    handle_call_ended_webhook (fun _ => some exWebhookBadTs) (fun _ => none)
        "test-secret" 0 exDB0 [] (some exSignature) =
      ⟨HandlerResult.httpError 400 "Invalid timestamp format", exDB0, none⟩ :=
  ⟨(webhook_duplicate_precedes_timestamps (fun _ => some exWebhookBadTs) (fun _ => none)
      "test-secret" 0 [] (some exSignature) exWebhookBadTs
      exSignature_valid rfl rfl).1 exDBdup exCall (by decide),
   (webhook_duplicate_precedes_timestamps (fun _ => some exWebhookBadTs) (fun _ => none)
      "test-secret" 0 [] (some exSignature) exWebhookBadTs
      exSignature_valid rfl rfl).2 exDB0 rfl rfl⟩

/-! ## C4: a transcription failure leaves a partial summary and nothing else -/

/-- C4: on a fresh pipeline run (the call exists and has no summary row yet)
in which the transcription backend raises, the run returns normally with the
datastore holding a summary row whose transcription_started_at is stamped
while transcript is still null, the action-item table is untouched (so no
ActionItem rows were created for the call), and the notification step was
never reached. -/
theorem pipeline_transcription_failure
    (analyze_call : Except Unit AnalysisResult) (now : Nat)
    (st : DBState) (call_id : Nat) (recording_url : String) (call : Call)
    (hcall : CallRepository.get_by_id st call_id = some call)
    (hnosum : SummaryRepository.get_by_call_id st call_id = none) :
    (∃ s, SummaryRepository.get_by_call_id
        (process_call_recording (Except.error ()) analyze_call now st call_id
          recording_url).1 call_id = some s ∧
      s.transcription_started_at = some now ∧ s.transcript = none) ∧
    (process_call_recording (Except.error ()) analyze_call now st call_id
      recording_url).1.action_items = st.action_items ∧
    (process_call_recording (Except.error ()) analyze_call now st call_id
      recording_url).2 = false := by
  refine ⟨⟨{ id := st.nextSummaryId
             call_id := call_id
             transcript := none
             summary := none
             sentiment := none
             urgency_score := none
             key_topics := none
             transcription_started_at := some now
             transcription_completed_at := none
             analysis_started_at := none
             analysis_completed_at := none }, ?_, rfl, rfl⟩, ?_, ?_⟩
  · simp only [process_call_recording, hcall, hnosum, SummaryRepository.create]
    unfold SummaryRepository.get_by_call_id at hnosum ⊢
    show (st.summaries ++ [_]).find? _ = _
    rw [find_append_of_none _ _ _ hnosum]
    simp [List.find?]
  · simp only [process_call_recording, hcall, hnosum, SummaryRepository.create]
  · simp only [process_call_recording, hcall, hnosum, SummaryRepository.create]

/-- Witness for C4: a datastore holding one call and no summary, with the
transcription backend raising. -/
theorem pipeline_transcription_failure_witness :
    (∃ s, SummaryRepository.get_by_call_id
        (process_call_recording (Except.error ()) (Except.error ()) 7 exDBdup 1
          "url").1 1 = some s ∧
      s.transcription_started_at = some 7 ∧ s.transcript = none) ∧
    (process_call_recording (Except.error ()) (Except.error ()) 7 exDBdup 1
      "url").1.action_items = exDBdup.action_items ∧
    (process_call_recording (Except.error ()) (Except.error ()) 7 exDBdup 1
      "url").2 = false :=
  pipeline_transcription_failure (Except.error ()) 7 exDBdup 1 "url" exCall rfl rfl

/-! ## C3: the completed_at / status invariant -/

def exCompletedItem : ActionItem :=
  ⟨1, 1, "Follow up", none, none, ActionItemStatus.completed, some 3, some 5, 0⟩

def exDBitems : DBState := ⟨[exCall], [], [exCompletedItem], 2, 1, 2⟩

def exPatchInProgress : ActionItemUpdate :=
  ⟨some ActionItemStatus.in_progress, none, none, none⟩

def exPatchNothing : ActionItemUpdate := ⟨none, none, none, none⟩

/-- C3 counterexample: a generic field update that moves a completed item
(completed_at = 5) to in_progress succeeds but leaves completed_at set,
so the completion timestamp is non-null while the status is not completed:
only the reopen endpoint clears the timestamp; ActionItemRepository.update
never does on a transition out of completed. -/
theorem actionitem_completed_at_counterexample :
    (update_action_item exDBitems 1 exPatchInProgress 10).map
        (fun r => (r.1.status, r.1.completed_at)) =
      some (ActionItemStatus.in_progress, some 5) ∧
    ActionItemStatus.in_progress ≠ ActionItemStatus.completed :=
  ⟨rfl, by decide⟩

/-- C3 (amended): on items satisfying it, the invariant (completed_at
non-null iff status completed) is preserved by complete, by reopen, and by
any generic field update that does not move the status out of completed;
a generic update that does move a completed item to another status does not
clear completed_at (see the counterexample), which is the one deviation
from the claim. -/
theorem actionitem_completed_at_invariant
    (st : DBState) (action_id now : Nat) (u : ActionItemUpdate) (i : ActionItem)
    (hget : ActionItemRepository.get_by_id st action_id = some i)
    (hinv : i.completed_at.isSome = true ↔ i.status = ActionItemStatus.completed) :
    (∀ r st2, complete_action_item st action_id now = some (r, st2) →
      (r.completed_at.isSome = true ↔ r.status = ActionItemStatus.completed)) ∧
    (∀ r st2, reopen_action_item st action_id now = some (r, st2) →
      (r.completed_at.isSome = true ↔ r.status = ActionItemStatus.completed)) ∧
    (∀ r st2, update_action_item st action_id u now = some (r, st2) →
      ¬(i.status = ActionItemStatus.completed ∧ u.status ≠ none ∧
          u.status ≠ some ActionItemStatus.completed) →
      (r.completed_at.isSome = true ↔ r.status = ActionItemStatus.completed)) := by
  refine ⟨?_, ?_, ?_⟩
  · intro r st2 h
    simp only [complete_action_item, hget] at h
    by_cases hc : i.status = ActionItemStatus.completed
    · simp only [hc, beq_self_eq_true, if_true, Option.some.injEq, Prod.mk.injEq] at h
      obtain ⟨h1, _⟩ := h
      subst h1
      exact hinv
    · rw [if_neg (by simpa using hc)] at h
      simp only [Option.some.injEq, Prod.mk.injEq] at h
      obtain ⟨h1, _⟩ := h
      subst h1
      simp [ActionItemRepository.update]
  · intro r st2 h
    simp only [reopen_action_item, hget, Option.some.injEq, Prod.mk.injEq] at h
    obtain ⟨h1, _⟩ := h
    subst h1
    simp [ActionItemRepository.update]
  · intro r st2 h hexc
    simp only [update_action_item, hget, Option.some.injEq, Prod.mk.injEq] at h
    obtain ⟨h1, _⟩ := h
    subst h1
    match hu : u.status with
    | none =>
      simp [ActionItemRepository.update, hu]
      exact hinv
    | some ActionItemStatus.completed =>
      by_cases hdone : i.completed_at = none
      · simp [ActionItemRepository.update, hu, hdone]
      · simp [ActionItemRepository.update, hu, hdone, Option.isSome_iff_ne_none]
    | some ActionItemStatus.pending =>
      have hnc : i.status ≠ ActionItemStatus.completed := by
        intro hc
        exact hexc ⟨hc, by simp [hu], by simp [hu]⟩
      have hnone : i.completed_at = none := by
        cases hca : i.completed_at with
        | none => rfl
        | some v => exact absurd (hinv.mp (by simp [hca])) hnc
      simp [ActionItemRepository.update, hu, hnone]
    | some ActionItemStatus.in_progress =>
      have hnc : i.status ≠ ActionItemStatus.completed := by
        intro hc
        exact hexc ⟨hc, by simp [hu], by simp [hu]⟩
      have hnone : i.completed_at = none := by
        cases hca : i.completed_at with
        | none => rfl
        | some v => exact absurd (hinv.mp (by simp [hca])) hnc
      simp [ActionItemRepository.update, hu, hnone]
    | some ActionItemStatus.cancelled =>
      have hnc : i.status ≠ ActionItemStatus.completed := by
        intro hc
        exact hexc ⟨hc, by simp [hu], by simp [hu]⟩
      have hnone : i.completed_at = none := by
        cases hca : i.completed_at with
        | none => rfl
        | some v => exact absurd (hinv.mp (by simp [hca])) hnc
      simp [ActionItemRepository.update, hu, hnone]

/-- Witness for C3 (amended) at a concrete completed item. -/
theorem actionitem_completed_at_invariant_witness :
    exCompletedItem.completed_at.isSome = true ↔
      exCompletedItem.status = ActionItemStatus.completed :=
  (actionitem_completed_at_invariant exDBitems 1 10 exPatchNothing exCompletedItem
      rfl (by decide)).1 exCompletedItem exDBitems rfl

/-! ## C9: completing an already-completed item is a no-op -/

/-- C9 (implicit): invoking complete on an item whose status is already
completed takes the early-return branch: the item and the datastore are
returned unchanged, so the original completed_at timestamp is preserved
rather than overwritten with the current time. -/
theorem complete_action_item_idempotent (st : DBState) (action_id now : Nat) (i : ActionItem)
    (hget : ActionItemRepository.get_by_id st action_id = some i)
    (hdone : i.status = ActionItemStatus.completed) :
    complete_action_item st action_id now = some (i, st) := by
  simp only [complete_action_item, hget, hdone, beq_self_eq_true, if_true]

/-- Witness for C9: completing the already-completed item (completed_at = 5)
at the later instant 99 returns it unchanged, completed_at still 5. -/
theorem complete_action_item_idempotent_witness :
    complete_action_item exDBitems 1 99 = some (exCompletedItem, exDBitems) :=
  complete_action_item_idempotent exDBitems 1 99 exCompletedItem rfl rfl

/-! ## C5: download size enforcement -/

/-- C5 (amended): a declared Content-Length exceeding the configured maximum
is rejected before any byte is persisted; but that header check is the only
size enforcement: when Content-Length is absent (or understates the body)
the whole body is streamed to disk with no defensive size check (see the
counterexample). -/
theorem download_audio_content_length_enforcement (max_audio_size_mb n : Nat) (body : Bytes) :
    (n > max_audio_size_mb * 1048576 →
      download_audio max_audio_size_mb (some n) body =
        { result := Except.error (), persisted := [] }) ∧
    (n ≤ max_audio_size_mb * 1048576 →
      download_audio max_audio_size_mb (some n) body =
        { result := Except.ok body.length, persisted := body }) ∧
    download_audio max_audio_size_mb none body =
      { result := Except.ok body.length, persisted := body } := by
  refine ⟨?_, ?_, rfl⟩
  · intro h
    simp only [download_audio]
    rw [if_pos h]
  · intro h
    simp only [download_audio]
    rw [if_neg (Nat.not_lt.mpr h)]

/-- Witness for C5 (amended): a 2000000-byte declaration against a 1 MB
limit is rejected with nothing persisted. -/
theorem download_audio_content_length_enforcement_witness :
    download_audio 1 (some 2000000) [0, 1, 2] =
      { result := Except.error (), persisted := [] } :=
  (download_audio_content_length_enforcement 1 2000000 [0, 1, 2]).1 (by norm_num)

/-- C5 counterexample: without a Content-Length header, a body one byte over
the 1 MB limit is accepted and persisted in full; no size limit is enforced
while streaming, refuting the defensive streaming-enforcement claim. -/
theorem download_audio_no_streaming_limit_counterexample :
    download_audio 1 none (List.replicate 1048577 0) =
      { result := Except.ok 1048577, persisted := List.replicate 1048577 0 } ∧
    (List.replicate 1048577 0).length > 1 * 1048576 := by
  constructor
  · show ({ result := Except.ok (List.replicate 1048577 0).length,
            persisted := List.replicate 1048577 0 } : DownloadOutcome) = _
    rw [List.length_replicate]
  · rw [List.length_replicate]
    norm_num

/-! ## C7: notification fan-out isolation -/

/-- C7: the notifier builds one task per configured channel and runs them
with asyncio.gather(..., return_exceptions := True), so when both channels
are configured both outcomes are collected whatever each is: one channel
failing never removes the other's attempt, and partial failure is returned
as data (a NotifOutcome) rather than raised.  When neither channel is
configured the call is a warning-logged no-op with no results. -/
theorem notification_failure_isolation (has_slack has_email : Bool)
    (slack_task email_task : Except Unit Unit) :
    (has_slack = true → has_email = true →
      send_call_summary_notification has_slack has_email slack_task email_task =
        { results := [slack_task, email_task], warnedNoChannels := false }) ∧
    (has_slack = false → has_email = false →
      send_call_summary_notification has_slack has_email slack_task email_task =
        { results := [], warnedNoChannels := true }) ∧
    (send_call_summary_notification has_slack has_email slack_task email_task).warnedNoChannels =
      (!has_slack && !has_email) := by
  refine ⟨?_, ?_, ?_⟩
  · rintro rfl rfl
    rfl
  · rintro rfl rfl
    rfl
  · cases has_slack <;> cases has_email <;> rfl

/-- Witness for C7: slack failing while email succeeds still records both
attempts, with no exception escaping. -/
theorem notification_failure_isolation_witness :
    send_call_summary_notification true true (Except.error ()) (Except.ok ()) =
      { results := [Except.error (), Except.ok ()], warnedNoChannels := false } :=
  (notification_failure_isolation true true (Except.error ()) (Except.ok ())).1 rfl rfl
